import Mathlib

/-!
Shallow embedding of the market-advisor page (`src/project/app/page.tsx`).

The page's logic layer consists of a mock quote generator
(`getMockMarketData`), a detail-report formatter
(`getMockDetailedAnalysis`), a keyword-matching query responder (the loop
inside `handleSubmit`), and simple state transitions on the component
state (`messages`, `input`, `marketData`, `loading`).

Randomness (`Math.random()`) is modelled by passing each draw as an
explicit rational argument `r`, `v` in `[0, 1)`. Numbers are modelled as
exact rationals; `toFixed(2)` and `toLocaleString()` are embedded as
deterministic functions on rationals and integers.
-/

/-- The `Message` record of the page: chat role and text content. -/
inductive Role where
  | user
  | assistant
  deriving DecidableEq

structure Message where
  content : String
  role : Role
  deriving DecidableEq

/-- The `MarketData` record: symbol, price, absolute change, percent change. -/
structure MarketData where
  symbol : String
  price : ℚ
  change : ℚ
  changePercent : ℚ
  deriving DecidableEq

/-- `WATCHED_SYMBOLS` from the source: the fixed five-symbol watch list. -/
def WATCHED_SYMBOLS : List String := ["^GSPC", "^DJI", "^IXIC", "GC=F", "BTC-USD"]

/-- `SYMBOL_NAMES` from the source, as an ordered association list; the
object-literal insertion order is the iteration order of
`Object.entries` used by `handleSubmit`. -/
def SYMBOL_NAMES : List (String × String) :=
  [("^GSPC", "S&P 500"),
   ("^DJI", "Dow Jones"),
   ("^IXIC", "NASDAQ"),
   ("GC=F", "Gold"),
   ("BTC-USD", "Bitcoin")]

/-- The object lookup `SYMBOL_NAMES[symbol]`, `none` when absent. -/
def symbolName (symbol : String) : Option String :=
  (SYMBOL_NAMES.find? (fun p => p.1 == symbol)).map Prod.snd

/-- The base-price object lookup in `getMockMarketData`, with the
`|| 100` fallback for unrecognized symbols. -/
def basePrice (symbol : String) : ℚ :=
  if symbol = "^GSPC" then 4500
  else if symbol = "^DJI" then 35000
  else if symbol = "^IXIC" then 14000
  else if symbol = "GC=F" then 1900
  else if symbol = "BTC-USD" then 45000
  else 100

/-- `getMockMarketData` from the source; `r` stands for the
`Math.random()` draw in `[0, 1)`. -/
def getMockMarketData (symbol : String) (r : ℚ) : MarketData :=
  let base := basePrice symbol
  let change := (r * 2 - 1) * (base * 0.02)
  let changePercent := (change / base) * 100
  { symbol := symbol
    price := base + change
    change := change
    changePercent := changePercent }

/-- Two-digit zero padding used by the embedded `toFixed(2)`. -/
def pad2 (n : Nat) : String :=
  if n < 10 then "0" ++ toString n else toString n

/-- Embedding of JavaScript `x.toFixed(2)` on exact rationals:
round `x * 100` to the nearest integer (ties up) and print with two
decimal places. -/
def toFixed2 (q : ℚ) : String :=
  if q < 0 then
    let n : ℤ := ⌊(-q) * 100 + 1 / 2⌋
    "-" ++ toString (n.toNat / 100) ++ "." ++ pad2 (n.toNat % 100)
  else
    let n : ℤ := ⌊q * 100 + 1 / 2⌋
    toString (n.toNat / 100) ++ "." ++ pad2 (n.toNat % 100)

/-- Insert a comma after every third digit of a reversed digit list;
helper for the embedded `toLocaleString()`. -/
def group3 : List Char → List Char
  | a :: b :: c :: d :: rest => a :: b :: c :: ',' :: group3 (d :: rest)
  | l => l

/-- Embedding of `volume.toLocaleString()` (en-US): thousands-separated
decimal rendering of an integer. -/
def toLocaleStr (n : ℤ) : String :=
  let digits := (toString n.natAbs).data
  (if n < 0 then "-" else "") ++ String.mk (group3 digits.reverse).reverse

/-- The five `stats` lines of `getMockDetailedAnalysis`, joined by
newlines, computed from the quote price and the drawn volume. -/
def analysisStats (price : ℚ) (volume : ℤ) : String :=
  let marketCap := price * (volume : ℚ)
  let dayLow := price * 0.98
  let dayHigh := price * 1.02
  let weekLow := price * 0.9
  let weekHigh := price * 1.1
  String.intercalate "\n"
    ["Current Price: $" ++ toFixed2 price,
     "Day Range: $" ++ toFixed2 dayLow ++ " - $" ++ toFixed2 dayHigh,
     "52 Week Range: $" ++ toFixed2 weekLow ++ " - $" ++ toFixed2 weekHigh,
     "Volume: " ++ toLocaleStr volume,
     "Market Cap: $" ++ toFixed2 (marketCap / 1000000000) ++ "B"]

/-- `getMockDetailedAnalysis` from the source; `r` is the generator's
random draw and `v` the volume draw, both in `[0, 1)`:
`volume = Math.floor(v * 1000000) + 500000`. -/
def getMockDetailedAnalysis (symbol : String) (r v : ℚ) : String :=
  let data := getMockMarketData symbol r
  let volume : ℤ := ⌊v * 1000000⌋ + 500000
  "Analysis for " ++ (symbolName symbol).getD symbol ++ ":\n" ++
    analysisStats data.price volume

/-- JavaScript `toLowerCase()` restricted to ASCII, acting on the
character data of the string. -/
def jsToLower (s : String) : String := String.mk (s.data.map Char.toLower)

/-- Boolean substring test on character lists; `needle.isPrefixOf` at
each suffix of the haystack. -/
def listIncludes (hay needle : List Char) : Bool :=
  match hay with
  | [] => needle.isEmpty
  | _ :: t => needle.isPrefixOf hay || listIncludes t needle

/-- Embedding of JavaScript `hay.includes(needle)`. -/
def strIncludes (hay needle : String) : Bool := listIncludes hay.data needle.data

/-- The `for (const [symbol, name] of Object.entries(SYMBOL_NAMES))`
loop of `handleSubmit`: `response` starts as `""` and is set to the
detailed analysis of the first entry whose lowercased display name
occurs in the lowercased input, then the loop breaks. -/
def respondLoop (entries : List (String × String)) (lowercaseInput : String)
    (r v : ℚ) : String :=
  match entries with
  | [] => ""
  | (symbol, name) :: rest =>
    if strIncludes lowercaseInput (jsToLower name) then
      getMockDetailedAnalysis symbol r v
    else
      respondLoop rest lowercaseInput r v

/-- The fixed fallback help message of `handleSubmit`. -/
def FALLBACK : String :=
  "I can provide detailed analysis for S&P 500, Dow Jones, NASDAQ, Gold, and Bitcoin. Please ask about one of these markets!"

/-- The query responder of `handleSubmit`: lowercase the input, run the
matching loop, and substitute the fallback when `response` is empty
(the falsiness test `if (!response)`). -/
def respond (input : String) (r v : ℚ) : String :=
  let lowercaseInput := jsToLower input
  let response := respondLoop SYMBOL_NAMES lowercaseInput r v
  if response = "" then FALLBACK else response

/-- JavaScript whitespace set used by `String.prototype.trim`. -/
def isJsWhitespace (c : Char) : Bool :=
  let n := c.toNat
  (9 ≤ n && n ≤ 13) || n == 32 || n == 160 || n == 0x1680 ||
    (0x2000 ≤ n && n ≤ 0x200a) || n == 0x2028 || n == 0x2029 ||
    n == 0x202f || n == 0x205f || n == 0x3000 || n == 0xfeff

/-- Embedding of JavaScript `input.trim()`. -/
def jsTrim (s : String) : String :=
  String.mk (((s.data.dropWhile isJsWhitespace).reverse.dropWhile
    isJsWhitespace).reverse)

/-- The component state of `Home`: message history, input field,
market-data snapshot, loading flag. -/
structure HomeState where
  messages : List Message
  input : String
  marketData : List MarketData
  loading : Bool
  deriving DecidableEq

/-- `handleSubmit` as a state transition: a blank (whitespace-only)
input is a no-op (`if (!input.trim()) return`); otherwise the user
message and the responder's answer are appended to the history and the
input field is cleared. -/
def handleSubmit (s : HomeState) (r v : ℚ) : HomeState :=
  if jsTrim s.input = "" then s
  else
    { s with
      messages := s.messages ++
        [{ role := Role.user, content := s.input },
         { role := Role.assistant, content := respond s.input r v }],
      input := "" }

/-- The `WATCHED_SYMBOLS.map((symbol) => getMockMarketData(symbol))`
computation of `updateMarketData`; `rand i` is the draw consumed by the
`i`-th generator call. -/
def refreshData (rand : Nat → ℚ) : List MarketData :=
  WATCHED_SYMBOLS.enum.map (fun p => getMockMarketData p.2 (rand p.1))

/-- `updateMarketData` as a state transition: the snapshot is replaced
wholesale by the freshly generated list. -/
def updateMarketData (rand : Nat → ℚ) (s : HomeState) : HomeState :=
  { s with marketData := refreshData rand, loading := false }

/-! ## Helper lemmas -/

/-- Every base price, the fallback included, is positive. -/
theorem basePrice_pos (symbol : String) : 0 < basePrice symbol := by
  unfold basePrice
  split_ifs <;> norm_num

/-- A detailed-analysis report is never the empty string: it starts
with the literal header text. -/
theorem analysis_ne_empty (symbol : String) (r v : ℚ) :
    getMockDetailedAnalysis symbol r v ≠ "" := by
  intro h
  have hd := congrArg String.data h
  simp only [getMockDetailedAnalysis, String.data_append] at hd
  simp at hd

/-- A detailed-analysis report is never the fallback message: the two
start with different characters. -/
theorem analysis_ne_fallback (symbol : String) (r v : ℚ) :
    getMockDetailedAnalysis symbol r v ≠ FALLBACK := by
  intro h
  have hd := congrArg (fun s => s.data.head?) h
  simp only [getMockDetailedAnalysis, String.data_append, FALLBACK] at hd
  simp at hd

/-! ## Claims -/

/-- Claim C1: for every input symbol string and every random draw, the
quote returned by the generator satisfies
`price = basePrice symbol + change` and
`changePercent = change / basePrice symbol * 100`, where `basePrice` is
the fixed per-symbol constant with fallback 100. -/
theorem quote_price_change_invariant (symbol : String) (r : ℚ) :
    (getMockMarketData symbol r).price =
      basePrice symbol + (getMockMarketData symbol r).change ∧
    (getMockMarketData symbol r).changePercent =
      (getMockMarketData symbol r).change / basePrice symbol * 100 := by
  constructor <;> rfl

/-- Claim C2: for every symbol of the watch list and every draw
`r ∈ [0, 1)`, the generated price lies in
`[0.98 * basePrice, 1.02 * basePrice]`. -/
theorem quote_price_within_two_percent (symbol : String) (r : ℚ)
    (hsym : symbol ∈ WATCHED_SYMBOLS) (h0 : 0 ≤ r) (h1 : r < 1) :
    0.98 * basePrice symbol ≤ (getMockMarketData symbol r).price ∧
    (getMockMarketData symbol r).price ≤ 1.02 * basePrice symbol := by
  have hb := basePrice_pos symbol
  simp only [getMockMarketData]
  constructor <;> nlinarith

/-- Witness for C2 at the concrete symbol `^GSPC` and draw `r = 1/2`. -/
theorem quote_price_within_two_percent_witness :
    0.98 * basePrice "^GSPC" ≤ (getMockMarketData "^GSPC" (1/2)).price ∧
    (getMockMarketData "^GSPC" (1/2)).price ≤ 1.02 * basePrice "^GSPC" :=
  quote_price_within_two_percent "^GSPC" (1/2) (by decide) (by norm_num)
    (by norm_num)

/-- The matching loop returns the analysis of the `i`-th entry when the
`i`-th display name matches and no earlier one does. -/
theorem respondLoop_first (entries : List (String × String))
    (low : String) (r v : ℚ) (i : Nat) (hi : i < entries.length)
    (hmatch : strIncludes low (jsToLower (entries.get ⟨i, hi⟩).2) = true)
    (hbefore : ∀ j (hj : j < i),
      strIncludes low (jsToLower (entries.get ⟨j, hj.trans hi⟩).2) = false) :
    respondLoop entries low r v =
      getMockDetailedAnalysis (entries.get ⟨i, hi⟩).1 r v := by
  induction entries generalizing i with
  | nil => exact absurd hi (Nat.not_lt_zero i)
  | cons e rest ih =>
    obtain ⟨sym, name⟩ := e
    cases i with
    | zero =>
      simp only [List.get] at hmatch ⊢
      simp [respondLoop, hmatch]
    | succ i =>
      have h0 := hbefore 0 (Nat.zero_lt_succ i)
      simp only [List.get] at h0 hmatch ⊢
      simp only [respondLoop, h0, if_false, Bool.false_eq_true]
      exact ih i (Nat.lt_of_succ_lt_succ hi) hmatch
        (fun j hj => hbefore (j + 1) (Nat.succ_lt_succ hj))

/-- The matching loop yields the empty string exactly when no entry of
the table matches. -/
theorem respondLoop_eq_empty_iff (entries : List (String × String))
    (low : String) (r v : ℚ) :
    respondLoop entries low r v = "" ↔
      ∀ p ∈ entries, strIncludes low (jsToLower p.2) = false := by
  induction entries with
  | nil => simp [respondLoop]
  | cons e rest ih =>
    obtain ⟨sym, name⟩ := e
    by_cases hm : strIncludes low (jsToLower name) = true
    · simp [respondLoop, hm, analysis_ne_empty]
    · simp only [Bool.not_eq_true] at hm
      simp [respondLoop, hm, ih]

/-- The matching loop never returns the fallback message: it returns
either the empty string or an analysis report. -/
theorem respondLoop_ne_fallback (entries : List (String × String))
    (low : String) (r v : ℚ) :
    respondLoop entries low r v ≠ FALLBACK := by
  induction entries with
  | nil =>
    simp only [respondLoop]
    intro h
    have := congrArg String.data h
    simp [FALLBACK] at this
  | cons e rest ih =>
    obtain ⟨sym, name⟩ := e
    by_cases hm : strIncludes low (jsToLower name) = true
    · simp [respondLoop, hm, analysis_ne_fallback]
    · simp only [Bool.not_eq_true] at hm
      simpa [respondLoop, hm] using ih

/-- Claim C3: the responder lowercases the input, scans the fixed table
in its declared order, and answers with the detailed analysis of the
first symbol whose lowercased display name occurs in the lowercased
input; earlier table entries win. -/
theorem respond_first_match_wins (text : String) (r v : ℚ) (i : Nat)
    (hi : i < SYMBOL_NAMES.length)
    (hmatch : strIncludes (jsToLower text)
      (jsToLower (SYMBOL_NAMES.get ⟨i, hi⟩).2) = true)
    (hbefore : ∀ j (hj : j < i),
      strIncludes (jsToLower text)
        (jsToLower (SYMBOL_NAMES.get ⟨j, hj.trans hi⟩).2) = false) :
    respond text r v =
      getMockDetailedAnalysis (SYMBOL_NAMES.get ⟨i, hi⟩).1 r v := by
  have hloop := respondLoop_first SYMBOL_NAMES (jsToLower text) r v i hi
    hmatch hbefore
  simp only [respond, hloop]
  rw [if_neg (analysis_ne_empty _ r v)]

/-- Witness for C3: the input "buy gold now" matches the fourth table
entry (Gold, symbol GC=F) and none of the three before it, so the
responder returns the Gold analysis. -/
theorem respond_first_match_wins_witness :
    respond "buy gold now" (1/2) (1/3) =
      getMockDetailedAnalysis
        (SYMBOL_NAMES.get ⟨3, by decide⟩).1 (1/2) (1/3) :=
  respond_first_match_wins "buy gold now" (1/2) (1/3) 3 (by decide)
    (by decide) (by decide)

/-- Claim C4: the responder returns exactly the fixed fallback message
if and only if no display name of the table, lowercased, occurs as a
substring of the lowercased input. -/
theorem respond_fallback_iff_no_match (text : String) (r v : ℚ) :
    respond text r v = FALLBACK ↔
      ∀ p ∈ SYMBOL_NAMES,
        strIncludes (jsToLower text) (jsToLower p.2) = false := by
  rw [← respondLoop_eq_empty_iff SYMBOL_NAMES (jsToLower text) r v]
  simp only [respond]
  by_cases he : respondLoop SYMBOL_NAMES (jsToLower text) r v = ""
  · simp [he]
  · simp [he, respondLoop_ne_fallback]

/-- Witness for C4: the input "banana" matches no display name, so the
responder returns the fallback message verbatim. -/
theorem respond_fallback_iff_no_match_witness :
    respond "banana" (1/2) (1/2) = FALLBACK :=
  (respond_fallback_iff_no_match "banana" (1/2) (1/2)).mpr (by decide)

/-- Claim C5: the detailed report is built from one generator call; for
a volume draw `v ∈ [0, 1)` the volume is an integer in
`[500000, 1500000)`, the derived fields are
`marketCap = price * volume`, `dayLow = price*0.98`,
`dayHigh = price*1.02`, `weekLow = price*0.9`, `weekHigh = price*1.1`,
and the lines appear in the fixed order: header, Current Price,
Day Range, 52-Week Range, Volume, Market Cap in billions. -/
theorem analysis_fields_and_order (symbol : String) (r v : ℚ)
    (h0 : 0 ≤ v) (h1 : v < 1) :
    500000 ≤ ⌊v * 1000000⌋ + 500000 ∧
    ⌊v * 1000000⌋ + 500000 < 1500000 ∧
    getMockDetailedAnalysis symbol r v =
      "Analysis for " ++ (symbolName symbol).getD symbol ++ ":\n" ++
        String.intercalate "\n"
          ["Current Price: $" ++
             toFixed2 (getMockMarketData symbol r).price,
           "Day Range: $" ++
             toFixed2 ((getMockMarketData symbol r).price * 0.98) ++
             " - $" ++
             toFixed2 ((getMockMarketData symbol r).price * 1.02),
           "52 Week Range: $" ++
             toFixed2 ((getMockMarketData symbol r).price * 0.9) ++
             " - $" ++
             toFixed2 ((getMockMarketData symbol r).price * 1.1),
           "Volume: " ++ toLocaleStr (⌊v * 1000000⌋ + 500000),
           "Market Cap: $" ++
             toFixed2 ((getMockMarketData symbol r).price *
               ((⌊v * 1000000⌋ + 500000 : ℤ) : ℚ) / 1000000000) ++
             "B"] := by
  refine ⟨?_, ?_, rfl⟩
  · have : (0 : ℤ) ≤ ⌊v * 1000000⌋ := by
      apply Int.floor_nonneg.mpr
      positivity
    omega
  · have : ⌊v * 1000000⌋ < 1000000 := by
      apply Int.floor_lt.mpr
      push_cast
      nlinarith
    omega

/-- Witness for C5 at symbol BTC-USD with draws `r = 1/3`, `v = 3/4`. -/
theorem analysis_fields_and_order_witness :
    500000 ≤ ⌊(3/4 : ℚ) * 1000000⌋ + 500000 ∧
    ⌊(3/4 : ℚ) * 1000000⌋ + 500000 < 1500000 ∧
    getMockDetailedAnalysis "BTC-USD" (1/3) (3/4) =
      "Analysis for " ++ (symbolName "BTC-USD").getD "BTC-USD" ++ ":\n" ++
        String.intercalate "\n"
          ["Current Price: $" ++
             toFixed2 (getMockMarketData "BTC-USD" (1/3)).price,
           "Day Range: $" ++
             toFixed2 ((getMockMarketData "BTC-USD" (1/3)).price * 0.98) ++
             " - $" ++
             toFixed2 ((getMockMarketData "BTC-USD" (1/3)).price * 1.02),
           "52 Week Range: $" ++
             toFixed2 ((getMockMarketData "BTC-USD" (1/3)).price * 0.9) ++
             " - $" ++
             toFixed2 ((getMockMarketData "BTC-USD" (1/3)).price * 1.1),
           "Volume: " ++ toLocaleStr (⌊(3/4 : ℚ) * 1000000⌋ + 500000),
           "Market Cap: $" ++
             toFixed2 ((getMockMarketData "BTC-USD" (1/3)).price *
               ((⌊(3/4 : ℚ) * 1000000⌋ + 500000 : ℤ) : ℚ) / 1000000000) ++
             "B"] :=
  analysis_fields_and_order "BTC-USD" (1/3) (3/4) (by norm_num) (by norm_num)

/-- Claim C6: a refresh over the watch list produces one quote per
watched symbol in watch-list order (so exactly five), and the new
snapshot replaces the old one wholesale: it does not depend on the
previous state at all. -/
theorem refresh_preserves_watchlist_order (rand : Nat → ℚ) :
    (refreshData rand).map MarketData.symbol = WATCHED_SYMBOLS ∧
    (refreshData rand).length = 5 ∧
    ∀ s₁ s₂ : HomeState,
      (updateMarketData rand s₁).marketData =
        (updateMarketData rand s₂).marketData := by
  refine ⟨rfl, rfl, fun s₁ s₂ => rfl⟩

/-- Claim C7: a symbol outside the fixed table still yields a quote,
from the fallback base price 100, and its detailed report's header uses
the raw symbol string while the numeric fields come from that fallback
base price. -/
theorem unknown_symbol_fallback (symbol : String) (r v : ℚ)
    (h : ∀ p ∈ SYMBOL_NAMES, p.1 ≠ symbol) :
    basePrice symbol = 100 ∧
    (getMockMarketData symbol r).price = 100 + (r * 2 - 1) * (100 * 0.02) ∧
    symbolName symbol = none ∧
    getMockDetailedAnalysis symbol r v =
      "Analysis for " ++ symbol ++ ":\n" ++
        analysisStats (100 + (r * 2 - 1) * (100 * 0.02))
          (⌊v * 1000000⌋ + 500000) := by
  have h1 : symbol ≠ "^GSPC" :=
    fun he => h ("^GSPC", "S&P 500") (by decide) he.symm
  have h2 : symbol ≠ "^DJI" :=
    fun he => h ("^DJI", "Dow Jones") (by decide) he.symm
  have h3 : symbol ≠ "^IXIC" :=
    fun he => h ("^IXIC", "NASDAQ") (by decide) he.symm
  have h4 : symbol ≠ "GC=F" :=
    fun he => h ("GC=F", "Gold") (by decide) he.symm
  have h5 : symbol ≠ "BTC-USD" :=
    fun he => h ("BTC-USD", "Bitcoin") (by decide) he.symm
  have hb : basePrice symbol = 100 := by
    simp [basePrice, h1, h2, h3, h4, h5]
  have e1 : ("^GSPC" == symbol) = false := beq_eq_false_iff_ne.mpr h1.symm
  have e2 : ("^DJI" == symbol) = false := beq_eq_false_iff_ne.mpr h2.symm
  have e3 : ("^IXIC" == symbol) = false := beq_eq_false_iff_ne.mpr h3.symm
  have e4 : ("GC=F" == symbol) = false := beq_eq_false_iff_ne.mpr h4.symm
  have e5 : ("BTC-USD" == symbol) = false := beq_eq_false_iff_ne.mpr h5.symm
  have hn : symbolName symbol = none := by
    simp only [symbolName, SYMBOL_NAMES, List.find?]
    simp [e1, e2, e3, e4, e5]
  refine ⟨hb, ?_, hn, ?_⟩
  · simp [getMockMarketData, hb]
  · simp [getMockDetailedAnalysis, getMockMarketData, hb, hn]

/-- Witness for C7 at the unrecognized symbol "AAPL". -/
theorem unknown_symbol_fallback_witness :
    basePrice "AAPL" = 100 ∧
    (getMockMarketData "AAPL" (1/2)).price =
      100 + ((1/2 : ℚ) * 2 - 1) * (100 * 0.02) ∧
    symbolName "AAPL" = none ∧
    getMockDetailedAnalysis "AAPL" (1/2) (1/2) =
      "Analysis for " ++ "AAPL" ++ ":\n" ++
        analysisStats (100 + ((1/2 : ℚ) * 2 - 1) * (100 * 0.02))
          (⌊(1/2 : ℚ) * 1000000⌋ + 500000) :=
  unknown_symbol_fallback "AAPL" (1/2) (1/2) (by decide)

/-- Claim C8: matching is case-insensitive: two inputs equal after
lowercasing select the same table symbol and, given the same random
draws, produce the same response. -/
theorem respond_case_insensitive (t₁ t₂ : String) (r v : ℚ)
    (h : jsToLower t₁ = jsToLower t₂) :
    respond t₁ r v = respond t₂ r v := by
  simp only [respond, h]

/-- Witness for C8 on the inputs "GOLD" and "gold". -/
theorem respond_case_insensitive_witness :
    respond "GOLD" (1/2) (1/2) = respond "gold" (1/2) (1/2) :=
  respond_case_insensitive "GOLD" "gold" (1/2) (1/2) (by decide)

/-- Claim C9: every submission step extends the message history only at
the end; the prior sequence is a prefix of the new one, so no existing
message is mutated, reordered, or removed. -/
theorem messages_append_only (s : HomeState) (r v : ℚ) :
    s.messages <+: (handleSubmit s r v).messages := by
  unfold handleSubmit
  split
  · exact List.prefix_rfl
  · exact List.prefix_append s.messages _

/-- Claim C10: submitting while the input is empty or whitespace-only
is a complete no-op: the state (messages, input field, market-data
snapshot, loading flag) is returned unchanged and no response, not even
the fallback, is generated. -/
theorem blank_input_noop (s : HomeState) (r v : ℚ)
    (h : ∀ c ∈ s.input.data, isJsWhitespace c = true) :
    handleSubmit s r v = s := by
  have ht : jsTrim s.input = "" := by
    have hd : s.input.data.dropWhile isJsWhitespace = [] :=
      List.dropWhile_eq_nil_iff.mpr h
    simp [jsTrim, hd]
  simp [handleSubmit, ht]

/-- Witness for C10: a state whose input field holds three spaces and a
tab is left exactly as it is. -/
theorem blank_input_noop_witness :
    handleSubmit
      { messages := [{ role := Role.assistant, content := "hi" }],
        input := "   \t",
        marketData := [],
        loading := false } (1/2) (1/2) =
      { messages := [{ role := Role.assistant, content := "hi" }],
        input := "   \t",
        marketData := [],
        loading := false } :=
  blank_input_noop _ (1/2) (1/2) (by decide)
